import Mathlib

/-!
Verification of the chat client (nextjs-app): message feed query, composer
submit flow, session controller, feed binding render states, sign-in and
sign-out error paths, Firebase client configuration, and timestamp rendering.
Definitions are shallow embeddings of the JavaScript source in
`src/app/ChatAppComponent.js`, `src/app/page.js` and `firebase.js`.
-/

/-- Identity supplied by the auth provider on sign-in
(`{uid, displayName, email, photoURL}`); `displayName`, `email` and
`photoURL` may be null. -/
structure Identity where
  uid : String
  displayName : Option String
  email : Option String
  photoURL : Option String
deriving Repr, DecidableEq

/-- Message document as read back from a subscription snapshot.
`createdAt` is the server-assigned timestamp in milliseconds, or `none`
while the server timestamp of a just-submitted message is still pending
(reads back as null). -/
structure MessageDoc where
  text : String
  createdAt : Option Nat
  uid : String
  photoURL : Option String
  userName : String
deriving Repr, DecidableEq

/-- Value placed in the `createdAt` field of a document handed to `addDoc`:
either the `serverTimestamp()` sentinel or a concrete client value. The
source only ever writes the sentinel. -/
inductive WriteTs where
  | serverTimestamp
  | client (millis : Nat)
deriving Repr, DecidableEq

/-- Document handed to `addDoc` by `sendMessage`
(ChatAppComponent.js lines 231-237). -/
structure WriteDoc where
  text : String
  createdAt : WriteTs
  uid : String
  photoURL : Option String
  userName : String
deriving Repr, DecidableEq

/-- Firestore ascending order on `createdAt` values: null sorts before any
assigned timestamp. -/
def tsLe : Option Nat → Option Nat → Bool
  | none, _ => true
  | some _, none => false
  | some a, some b => a ≤ b

/-- Insert a document into a list already sorted ascending by `createdAt`. -/
def insertByTs (m : MessageDoc) : List MessageDoc → List MessageDoc
  | [] => [m]
  | x :: xs => if tsLe x.createdAt m.createdAt then x :: insertByTs m xs else m :: x :: xs

/-- Sort a collection ascending by `createdAt` (insertion sort). -/
def sortByTs : List MessageDoc → List MessageDoc
  | [] => []
  | x :: xs => insertByTs x (sortByTs xs)

/-- Result set of the live query built in `MessagesList`
(ChatAppComponent.js lines 104-108, page.js lines 49-53):
`query(messagesRef, orderBy('createdAt'), limit(50))`. Firestore sorts the
collection ascending by `createdAt` and `limit(50)` keeps the FIRST fifty
documents of that ascending order. -/
def messagesQuery (coll : List MessageDoc) : List MessageDoc :=
  (sortByTs coll).take 50

/-- Modelled from the spec: the window the spec describes, "all messages
ordered by `createdAt` ascending, capped to the most recent 50", i.e. the
LAST fifty documents of the ascending order. Stated for comparison with
`messagesQuery`. -/
def specNewestWindow (coll : List MessageDoc) : List MessageDoc :=
  let s := sortByTs coll
  s.drop (s.length - 50)

/-- Sample message with an assigned timestamp `i`. -/
def mkMsg (i : Nat) : MessageDoc :=
  { text := "m", createdAt := some i, uid := "u1", photoURL := none, userName := "Alice" }

/-- Collection holding 51 messages with timestamps 0..50. -/
def coll51 : List MessageDoc := (List.range 51).map mkMsg

/-- Everything observable about one `sendMessage` invocation: the draft
after the handler returns, the `addDoc` calls issued, the documents the
store actually persisted, and the `console.error` lines emitted. -/
structure SubmitOutcome where
  draft : String
  appendCalls : List WriteDoc
  stored : List WriteDoc
  errors : List String
deriving Repr, DecidableEq

/-- Drop leading whitespace characters from a character list. -/
def dropWs : List Char → List Char
  | [] => []
  | c :: cs => if c.isWhitespace then dropWs cs else c :: cs

/-- Embedding of the JavaScript `String.prototype.trim()` used by the
guard: remove whitespace from both ends of the string. -/
def jsTrim (s : String) : String :=
  String.mk (dropWs (dropWs s.data.reverse).reverse)

/-- The `userName` field written by `sendMessage`: the JavaScript is
`displayName || 'Anonymous'`, so a null or empty display name falls back
to the literal `"Anonymous"`. -/
def userNameOf (u : Identity) : String :=
  match u.displayName with
  | some s => if s = "" then "Anonymous" else s
  | none => "Anonymous"

/-- Document constructed by `sendMessage` for `addDoc`
(ChatAppComponent.js lines 231-237): text is the draft verbatim
(untrimmed), `createdAt` is the `serverTimestamp()` sentinel, `uid` and
`photoURL` are copied from the user, `userName` is
`displayName || 'Anonymous'`. -/
def mkWriteDoc (u : Identity) (draft : String) : WriteDoc :=
  { text := draft
    createdAt := WriteTs.serverTimestamp
    uid := u.uid
    photoURL := u.photoURL
    userName := userNameOf u }

/-- Embedding of `sendMessage` (ChatAppComponent.js lines 223-243, page.js
lines 131-151). The guard is `if (!formValue.trim() || !user) return;`.
When the guard passes, one `addDoc` is issued; `appendOk` records whether
the awaited `addDoc` resolved: on success the draft is cleared
(`setFormValue('')`), on rejection the catch block logs
`'Error sending message:'` and the draft is left untouched. -/
def sendMessage (user : Option Identity) (draft : String) (appendOk : Bool) : SubmitOutcome :=
  if jsTrim draft = "" then
    { draft := draft, appendCalls := [], stored := [], errors := [] }
  else
    match user with
    | none => { draft := draft, appendCalls := [], stored := [], errors := [] }
    | some u =>
      let doc := mkWriteDoc u draft
      if appendOk then
        { draft := "", appendCalls := [doc], stored := [doc], errors := [] }
      else
        { draft := draft, appendCalls := [doc], stored := [], errors := ["Error sending message:"] }

/-- React state of `ChatAppComponent`: `loadingAuth` (initially true, set
false by the first `onAuthStateChanged` callback) and `user` (the current
Firebase user or null). -/
structure AuthState where
  loadingAuth : Bool
  user : Option Identity
deriving Repr, DecidableEq

/-- Session state as the spec describes it: `Loading`, `Anonymous` or
`Authenticated(identity)`. -/
inductive SessionState where
  | loading
  | anonymous
  | authenticated (u : Identity)
deriving Repr, DecidableEq

/-- Session state observed from the component state: `loadingAuth` takes
priority, then the presence of `user` decides. -/
def sessionOf (s : AuthState) : SessionState :=
  if s.loadingAuth then SessionState.loading
  else
    match s.user with
    | some u => SessionState.authenticated u
    | none => SessionState.anonymous

/-- View selected by the render of `ChatAppComponent`
(lines 302-378): the loading block, the chat view (user card, messages
list and composer form) or the sign-in prompt. -/
inductive View where
  | loadingView
  | chatView (u : Identity)
  | authPrompt
deriving Repr, DecidableEq

/-- Embedding of the render branch
`loadingAuth ? <spinner/> : user ? <chat/> : <prompt/>`. -/
def render (s : AuthState) : View :=
  if s.loadingAuth then View.loadingView
  else
    match s.user with
    | some u => View.chatView u
    | none => View.authPrompt

/-- Whether the composer (`MessageForm`) is rendered in a given view: it
appears only inside the chat view. -/
def composerRendered : View → Bool
  | View.chatView _ => true
  | _ => false

/-- Modelled from the spec: the view each session state should select.
Stated for comparison with `render`. -/
def specViewFor : SessionState → View
  | SessionState.loading => View.loadingView
  | SessionState.anonymous => View.authPrompt
  | SessionState.authenticated u => View.chatView u

/-- Output of `useCollectionData(messagesQuery, ...)` as destructured in
`MessagesList`: `[messages, loadingMessages, error]`, where `messages` may
be undefined before the first snapshot and `error` carries the failure
message. -/
structure HookResult where
  messages : Option (List MessageDoc)
  loading : Bool
  error : Option String
deriving Repr, DecidableEq

/-- Feed binding state as the spec describes it: `Loading`, `Error(message)`
or `Ready(messages)`. -/
inductive FeedState where
  | loading
  | error (msg : String)
  | ready (msgs : List MessageDoc)
deriving Repr, DecidableEq

/-- Feed state abstracted from the hook output, following the priority the
render gives the three fields: loading first, then error, then the (possibly
undefined, hence defaulted-to-empty) message list. -/
def feedStateOf (h : HookResult) : FeedState :=
  if h.loading then FeedState.loading
  else
    match h.error with
    | some e => FeedState.error e
    | none => FeedState.ready (h.messages.getD [])

/-- What the `MessagesList` render produces: the loading spinner block, the
error text, the empty-state message or the list of message bubbles. -/
inductive FeedView where
  | spinner
  | errorText (s : String)
  | emptyState
  | list (msgs : List MessageDoc)
deriving Repr, DecidableEq

/-- Embedding of the `MessagesList` render cascade
(ChatAppComponent.js lines 128-173): `if (loadingMessages) return spinner`;
`if (error) return 'Error loading messages: ' + error.message`; then
`!messages || messages.length === 0` selects the empty-state text, else the
message bubbles. -/
def renderFeed (h : HookResult) : FeedView :=
  if h.loading then FeedView.spinner
  else
    match h.error with
    | some e => FeedView.errorText ("Error loading messages: " ++ e)
    | none =>
      match h.messages with
      | none => FeedView.emptyState
      | some [] => FeedView.emptyState
      | some ms => FeedView.list ms

/-- Modelled from the spec: the feed view each feed state should select.
Stated for comparison with `renderFeed`. -/
def specFeedViewFor : FeedState → FeedView
  | FeedState.loading => FeedView.spinner
  | FeedState.error e => FeedView.errorText ("Error loading messages: " ++ e)
  | FeedState.ready [] => FeedView.emptyState
  | FeedState.ready ms => FeedView.list ms

/-- Embedding of `handleSignOut` (ChatAppComponent.js lines 269-275)
together with the `onAuthStateChanged` listener (lines 245-252). On a
successful `signOut(auth)` the provider emits an auth-state change with no
user, which the listener applies (`setUser(null); setLoadingAuth(false)`).
On failure the catch block only runs `console.error('Error signing out:')`:
no state update of any kind is issued by the handler. -/
def handleSignOut (ok : Bool) (s : AuthState) (log : List String) : AuthState × List String :=
  if ok then ({ loadingAuth := false, user := none }, log)
  else (s, log ++ ["Error signing out:"])

/-- Concrete authenticated user for counterexamples and witnesses. -/
def alice : Identity :=
  { uid := "u1", displayName := some "Alice", email := some "alice@example.com", photoURL := none }

/-- Concrete user whose provider profile carries no display name. -/
def bob : Identity :=
  { uid := "u2", displayName := none, email := none, photoURL := none }

/-- Component state while Alice is signed in. -/
def authedAlice : AuthState := { loadingAuth := false, user := some alice }

/-- Everything observable about one `handleGoogleLogin` invocation
(ChatAppComponent.js lines 256-267): the component state after the handler
and the listener settle, the `alert(...)` messages raised, and the number
of `signInWithPopup` calls issued. -/
structure LoginOutcome where
  state : AuthState
  alerts : List String
  signInAttempts : Nat
deriving Repr, DecidableEq

/-- Embedding of `handleGoogleLogin`: `setLoadingAuth(true)`, one awaited
`signInWithPopup`, a catch block that logs and raises
`alert('Failed to sign in with Google. Please try again.')`, and a finally
block running `setLoadingAuth(false)`. `popupResult` is `some u` when the
popup resolves with identity `u` (the listener then applies it) and `none`
when the user cancels or the provider rejects; in that case the user state
is untouched and no further attempt is made. -/
def handleGoogleLogin (popupResult : Option Identity) (s : AuthState) : LoginOutcome :=
  match popupResult with
  | some u =>
    { state := { loadingAuth := false, user := some u }, alerts := [], signInAttempts := 1 }
  | none =>
    { state := { loadingAuth := false, user := s.user }
      alerts := ["Failed to sign in with Google. Please try again."]
      signInAttempts := 1 }

/-- Connection parameters read from the environment in `firebase.js`
(lines 8-16); each `NEXT_PUBLIC_FIREBASE_*` variable may be absent. -/
structure Env where
  apiKey : Option String
  authDomain : Option String
  projectId : Option String
  storageBucket : Option String
  messagingSenderId : Option String
  appId : Option String
  vapidKey : Option String
deriving Repr, DecidableEq

/-- Config object passed to the SDK constructor; a field is `none` exactly
when the corresponding environment variable was absent (undefined). -/
structure FirebaseConfig where
  apiKey : Option String
  authDomain : Option String
  projectId : Option String
  storageBucket : Option String
  messagingSenderId : Option String
  appId : Option String
  measurementId : Option String
deriving Repr, DecidableEq

/-- Embedding of the `firebaseConfig` literal (firebase.js lines 8-16):
every field is copied straight from the environment, with no presence
check; `measurementId` is read from the VAPID key variable. -/
def firebaseConfig (e : Env) : FirebaseConfig :=
  { apiKey := e.apiKey
    authDomain := e.authDomain
    projectId := e.projectId
    storageBucket := e.storageBucket
    messagingSenderId := e.messagingSenderId
    appId := e.appId
    measurementId := e.vapidKey }

/-- Embedding of firebase.js line 19:
`getApps().length ? getApp() : initializeApp(firebaseConfig)`. An existing
app instance is reused; otherwise the SDK client is constructed from the
config unconditionally. The source performs no validation of any field, so
construction never returns an error at config time. -/
def initFirebaseApp (existing : Option FirebaseConfig) (e : Env) : Except String FirebaseConfig :=
  match existing with
  | some app => Except.ok app
  | none => Except.ok (firebaseConfig e)

/-- Environment with every provider connection parameter absent. -/
def emptyEnv : Env :=
  { apiKey := none, authDomain := none, projectId := none, storageBucket := none,
    messagingSenderId := none, appId := none, vapidKey := none }

/-- Two-digit rendering of an hour or minute value. -/
def pad2 (n : Nat) : String :=
  if n < 10 then "0" ++ toString n else toString n

/-- Conversion performed by `timestamp.toDate()` on an assigned (non-null)
timestamp: it yields the date value the locale formatter reads. Modelled as
the identity on milliseconds. -/
def toDate (millis : Nat) : Nat := millis

/-- Hour-and-minute rendering of `toLocaleTimeString([], {hour, minute})`,
abstracted to a fixed 24-hour locale. -/
def renderClock (millis : Nat) : String :=
  pad2 (millis / 3600000 % 24) ++ ":" ++ pad2 (millis / 60000 % 60)

/-- Embedding of `formatTime` (ChatAppComponent.js lines 114-119, page.js
lines 59-64): `if (!timestamp) return '';` then
`timestamp.toDate().toLocaleTimeString(...)`. `toDate` is only reached in
the non-null branch. -/
def formatTime (timestamp : Option Nat) : String :=
  match timestamp with
  | none => ""
  | some t => renderClock (toDate t)

/-- Message whose server timestamp has not resolved yet. -/
def pendingMsg : MessageDoc :=
  { text := "hello", createdAt := none, uid := "u1", photoURL := none, userName := "Alice" }

/-- C1: the claim states that for a collection with more than 50 messages
the displayed window is the newest 50 ascending. The code's query
(`orderBy('createdAt')` ascending with `limit(50)`) instead keeps the FIRST
fifty of the ascending order, i.e. the OLDEST fifty: on a collection with
timestamps 0..50 the query returns the messages timestamped 0..49, while
the window the spec describes is the messages timestamped 1..50, and the
two differ. -/
theorem messagesQuery_takes_oldest_not_newest :
    messagesQuery coll51 = (List.range 50).map mkMsg ∧
    specNewestWindow coll51 = (List.range 50).map (fun i => mkMsg (i + 1)) ∧
    messagesQuery coll51 ≠ specNewestWindow coll51 := by decide

/-- C2: a submit whose trimmed draft is empty, or issued with no signed-in
user, changes nothing: no append call is issued, nothing is stored, no
error is logged, and the draft is unchanged. -/
theorem sendMessage_guard (user : Option Identity) (draft : String) (ok : Bool)
    (h : jsTrim draft = "" ∨ user = none) :
    sendMessage user draft ok =
      { draft := draft, appendCalls := [], stored := [], errors := [] } := by
  rcases h with h | h
  · simp [sendMessage, h]
  · subst h
    unfold sendMessage
    by_cases ht : jsTrim draft = "" <;> simp [ht]

/-- Witness for C2: a whitespace-only draft submitted by a signed-in user
produces no append. -/
theorem sendMessage_guard_witness :
    sendMessage (some alice) "   " true =
      { draft := "   ", appendCalls := [], stored := [], errors := [] } :=
  sendMessage_guard (some alice) "   " true (Or.inl (by decide))

/-- C3: once the guard passes, a successful append clears the draft and
stores exactly the constructed document, while a failed append leaves the
draft exactly unchanged, stores nothing, and logs the error. -/
theorem sendMessage_atomic (u : Identity) (draft : String)
    (h : ¬ jsTrim draft = "") :
    (sendMessage (some u) draft true).draft = "" ∧
    (sendMessage (some u) draft true).stored = [mkWriteDoc u draft] ∧
    (sendMessage (some u) draft false).draft = draft ∧
    (sendMessage (some u) draft false).stored = [] ∧
    (sendMessage (some u) draft false).errors = ["Error sending message:"] := by
  simp [sendMessage, h]

/-- Witness for C3: Alice submits "hello"; on success the draft clears, on
failure it stays "hello" and the error is logged. -/
theorem sendMessage_atomic_witness :
    (sendMessage (some alice) "hello" true).draft = "" ∧
    (sendMessage (some alice) "hello" true).stored = [mkWriteDoc alice "hello"] ∧
    (sendMessage (some alice) "hello" false).draft = "hello" ∧
    (sendMessage (some alice) "hello" false).stored = [] ∧
    (sendMessage (some alice) "hello" false).errors = ["Error sending message:"] :=
  sendMessage_atomic alice "hello" (by decide)

/-- C4 counterexample: the claim states the appended document's `userName`
equals the identity's display name. For a user whose provider profile has
no display name (null), the code writes the fallback `"Anonymous"` instead,
which is not the (null) display name. -/
theorem sendMessage_userName_cex :
    (sendMessage (some bob) "hello" true).appendCalls = [mkWriteDoc bob "hello"] ∧
    (mkWriteDoc bob "hello").userName = "Anonymous" ∧
    bob.displayName = none ∧
    some (mkWriteDoc bob "hello").userName ≠ bob.displayName := by decide

/-- C4 amended: every submit that passes the guard issues exactly one
append whose fields are the draft verbatim, the server-timestamp sentinel,
the identity's uid and avatar, and — as `userName` — the identity's display
name when it is present and non-empty, else the literal `"Anonymous"`. -/
theorem sendMessage_appends_one (u : Identity) (draft : String) (ok : Bool)
    (h : ¬ jsTrim draft = "") :
    (sendMessage (some u) draft ok).appendCalls =
      [{ text := draft
         createdAt := WriteTs.serverTimestamp
         uid := u.uid
         photoURL := u.photoURL
         userName := match u.displayName with
           | some s => if s = "" then "Anonymous" else s
           | none => "Anonymous" }] := by
  cases ok <;> simp [sendMessage, h, mkWriteDoc, userNameOf]

/-- Witness for C4 amended: Alice submitting "hello" yields one append with
text "hello", uid "u1", userName "Alice". -/
theorem sendMessage_appends_one_witness :
    (sendMessage (some alice) "hello" true).appendCalls =
      [{ text := "hello", createdAt := WriteTs.serverTimestamp, uid := "u1",
         photoURL := none, userName := "Alice" }] := by
  rw [sendMessage_appends_one alice "hello" true (by decide)]
  rfl

/-- C5: the observed session state is always exactly one of Loading,
Anonymous or Authenticated, the rendered view is the one that state
selects (Loading blocks both the chat view and the auth prompt, Anonymous
selects the auth prompt, Authenticated the chat view), and the composer is
rendered exactly in the Authenticated case. -/
theorem session_view_selection (s : AuthState) :
    (sessionOf s = SessionState.loading ∨ sessionOf s = SessionState.anonymous ∨
      ∃ u, sessionOf s = SessionState.authenticated u) ∧
    render s = specViewFor (sessionOf s) ∧
    (composerRendered (render s) = true ↔ ∃ u, sessionOf s = SessionState.authenticated u) := by
  obtain ⟨l, u⟩ := s
  cases l <;> cases u <;> simp [sessionOf, render, specViewFor, composerRendered]

/-- C6: the feed binding is in exactly one of the three states Loading,
Error or Ready, the feed renders the view that state selects (spinner for
Loading, the error text derived from the failure message for Error, the
empty-state text for Ready with zero messages, the bubbles otherwise), and
the spinner is shown exactly in the Loading state (so no spinner remains
once an error is shown). -/
theorem feed_state_render (h : HookResult) :
    (feedStateOf h = FeedState.loading ∨ (∃ e, feedStateOf h = FeedState.error e) ∨
      ∃ ms, feedStateOf h = FeedState.ready ms) ∧
    renderFeed h = specFeedViewFor (feedStateOf h) ∧
    (renderFeed h = FeedView.spinner ↔ feedStateOf h = FeedState.loading) := by
  obtain ⟨msgs, l, err⟩ := h
  cases l
  · cases err
    · cases msgs with
      | none => simp [feedStateOf, renderFeed, specFeedViewFor]
      | some ms => cases ms <;> simp [feedStateOf, renderFeed, specFeedViewFor]
    · simp [feedStateOf, renderFeed, specFeedViewFor]
  · simp [feedStateOf, renderFeed, specFeedViewFor]

/-- C7 counterexample: the claim states that on a failed sign-out the view
still transitions to Anonymous. With Alice signed in and the provider call
failing, the handler logs the error but leaves the component state exactly
as it was, and the observed session is still Authenticated rather than
Anonymous. -/
theorem handleSignOut_cex :
    (handleSignOut false authedAlice []).1 = authedAlice ∧
    (handleSignOut false authedAlice []).2 = ["Error signing out:"] ∧
    sessionOf (handleSignOut false authedAlice []).1 ≠ SessionState.anonymous := by decide

/-- C7 amended: when the sign-out call fails, the error is logged and the
controller state is left unchanged — there is no optimistic transition to
Anonymous; the session becomes Anonymous only through the auth-state
listener, i.e. when the provider actually signed out. -/
theorem handleSignOut_failure (s : AuthState) (log : List String) :
    handleSignOut false s log = (s, log ++ ["Error signing out:"]) := by
  simp [handleSignOut]

/-- C8 counterexample: the claim states that with a required parameter
absent, initialization fails fast with a descriptive error. With every
parameter absent, the code still constructs the client, with all config
fields undefined — no error is returned. -/
theorem initFirebaseApp_cex :
    initFirebaseApp none emptyEnv = Except.ok (firebaseConfig emptyEnv) ∧
    (firebaseConfig emptyEnv).apiKey = none ∧
    (firebaseConfig emptyEnv).projectId = none ∧
    (firebaseConfig emptyEnv).appId = none :=
  ⟨rfl, rfl, rfl, rfl⟩

/-- C8 amended: client initialization always succeeds: whatever parameters
the environment is missing, the client is constructed with those config
fields undefined; no startup validation or descriptive error exists. -/
theorem initFirebaseApp_total (e : Env) :
    initFirebaseApp none e = Except.ok (firebaseConfig e) := rfl

/-- C9: when interactive sign-in is cancelled or fails while the session is
Anonymous, the session remains Anonymous, exactly one user-visible alert is
raised, and exactly one sign-in attempt was made (no automatic retry). -/
theorem handleGoogleLogin_failure (s : AuthState) (h : s.user = none) :
    sessionOf (handleGoogleLogin none s).state = SessionState.anonymous ∧
    (handleGoogleLogin none s).alerts = ["Failed to sign in with Google. Please try again."] ∧
    (handleGoogleLogin none s).signInAttempts = 1 := by
  simp [handleGoogleLogin, sessionOf, h]

/-- Witness for C9: a cancelled popup from the anonymous idle state leaves
the session Anonymous with one alert and one attempt. -/
theorem handleGoogleLogin_failure_witness :
    sessionOf (handleGoogleLogin none { loadingAuth := false, user := none }).state =
      SessionState.anonymous ∧
    (handleGoogleLogin none { loadingAuth := false, user := none }).alerts =
      ["Failed to sign in with Google. Please try again."] ∧
    (handleGoogleLogin none { loadingAuth := false, user := none }).signInAttempts = 1 :=
  handleGoogleLogin_failure { loadingAuth := false, user := none } rfl

/-- C10: for every message whose `createdAt` is null (server timestamp not
yet assigned), `formatTime` returns the empty string; `toDate` is only
applied in the non-null branch, so a pending message renders with an empty
time label rather than crashing. -/
theorem formatTime_pending (m : MessageDoc) (h : m.createdAt = none) :
    formatTime m.createdAt = "" := by
  rw [h]
  rfl

/-- Witness for C10: a just-submitted message with pending timestamp
renders an empty time label. -/
theorem formatTime_pending_witness :
    formatTime pendingMsg.createdAt = "" :=
  formatTime_pending pendingMsg rfl
